import Mathlib

/-!
Verification of `src/diffbot_mcp_server.py` (Diffbot MCP server).

The Python code is shallowly embedded: JSON / Python values become the
inductive `PyVal`, fallible Python operations become `Except PyErr`
computations, and the two tools `dql_search` / `enhance_entity` become
functions taking an explicit HTTP oracle `fetch` so that "no network
call is issued" is expressible as independence from the oracle.
-/

set_option maxRecDepth 8192

namespace Diffbot

/-- A Python value as produced by `response.json()` (plus `None`,
which `dict.get` can introduce).  Python dicts are modelled as
association lists with string keys, in insertion order. -/
inductive PyVal where
  | null
  | bool (b : Bool)
  | int (n : Int)
  | float (q : Rat)
  | str (s : String)
  | list (xs : List PyVal)
  | dict (kvs : List (String × PyVal))

/-- Python exception classes that the embedded fragments can raise.
Messages of the built-in exceptions are abstracted away; only the
class matters for the control flow of the `except` clauses. -/
inductive PyErr where
  | typeError
  | valueError
  | keyError (k : String)
  | attributeError
  | indexError
deriving DecidableEq

/-- First-match association-list lookup (Python dict lookup; keys are
unique in any dict produced by JSON parsing). -/
def dget : List (String × PyVal) → String → Option PyVal
  | [], _ => Option.none
  | (k, v) :: rest, key => if k = key then some v else dget rest key

/-- Python truthiness (`bool(v)`). -/
def truthy : PyVal → Bool
  | .null => false
  | .bool b => b
  | .int n => n != 0
  | .float q => q != 0
  | .str s => s != ""
  | .list xs => !xs.isEmpty
  | .dict kvs => !kvs.isEmpty

/-- Abstraction of Python float `str()`.  No claim depends on the
precise decimal rendering of a float, only on it being a fixed
function of the value. -/
def floatStr (q : Rat) : String :=
  if q.den = 1 then toString q.num ++ ".0"
  else toString q.num ++ "/" ++ toString q.den

mutual

/-- Python `str(v)` (used by f-string interpolation). The `repr` of a
float is abstracted by `Diffbot.floatStr`. -/
def pyStr : PyVal → String
  | .null => "None"
  | .bool b => if b then "True" else "False"
  | .int n => toString n
  | .float q => floatStr q
  | .str s => s
  | .list xs => "[" ++ pyStrList xs ++ "]"
  | .dict kvs => "\x7b" ++ pyStrDict kvs ++ "\x7d"

/-- Python `repr(v)`, as used for elements inside `str(list)` /
`str(dict)`.  String escaping inside `repr` is not modelled: the
embedded strings are quoted verbatim. -/
def pyRepr : PyVal → String
  | .null => "None"
  | .bool b => if b then "True" else "False"
  | .int n => toString n
  | .float q => floatStr q
  | .str s => "\x27" ++ s ++ "\x27"
  | .list xs => "[" ++ pyStrList xs ++ "]"
  | .dict kvs => "\x7b" ++ pyStrDict kvs ++ "\x7d"

/-- Comma-separated `repr`s of the elements of a Python list. -/
def pyStrList : List PyVal → String
  | [] => ""
  | [x] => pyRepr x
  | x :: xs => pyRepr x ++ ", " ++ pyStrList xs

/-- Comma-separated `repr: repr` pairs of a Python dict. -/
def pyStrDict : List (String × PyVal) → String
  | [] => ""
  | [(k, v)] => "\x27" ++ k ++ "\x27: " ++ pyRepr v
  | (k, v) :: kvs => "\x27" ++ k ++ "\x27: " ++ pyRepr v ++ ", " ++ pyStrDict kvs

end

/-- Whether `sub` occurs as a contiguous run inside `l`. -/
def containsSub (l sub : List Char) : Bool :=
  if sub.isPrefixOf l then true
  else
    match l with
    | [] => false
    | _ :: rest => containsSub rest sub

/-- Python substring test (`sub in s` for strings). -/
def strContains (s sub : String) : Bool :=
  containsSub s.data sub.data

/-- Python `key in container` for a string `key`.  Key test on dicts,
membership on lists, substring test on strings; `TypeError` on
non-iterable values. -/
def pyContains : PyVal → String → Except PyErr Bool
  | .dict kvs, key => .ok (dget kvs key).isSome
  | .list xs, key => .ok (xs.any fun x => match x with
      | .str s => s = key
      | _ => false)
  | .str s, key => .ok (strContains s key)
  | _, _ => .error .typeError

/-- Python `container[key]` with a string `key`. -/
def pySubscr : PyVal → String → Except PyErr PyVal
  | .dict kvs, key => match dget kvs key with
      | some v => .ok v
      | Option.none => .error (.keyError key)
  | .list _, _ => .error .typeError
  | .str _, _ => .error .typeError
  | _, _ => .error .typeError

/-- Python `container[0]`.  Strings yield their first character as a
one-character string; subscripting a dict with the int key `0` is a
`KeyError`; other values are not subscriptable. -/
def pySubscr0 : PyVal → Except PyErr PyVal
  | .list xs => match xs.head? with
      | some x => .ok x
      | Option.none => .error .indexError
  | .str s => match s.data.head? with
      | some c => .ok (.str (String.singleton c))
      | Option.none => .error .indexError
  | .dict _ => .error (.keyError "0")
  | _ => .error .typeError

/-- Python `container.get(key, default)`: only dicts have `.get`. -/
def pyGetD : PyVal → String → PyVal → Except PyErr PyVal
  | .dict kvs, key, d => .ok ((dget kvs key).getD d)
  | _, _, _ => .error .attributeError

/-- Python `list(container.keys())`: only dicts have `.keys`. -/
def pyKeysOwner : PyVal → Except PyErr (List (String × PyVal))
  | .dict kvs => .ok kvs
  | _ => .error .attributeError

/-- Python `len(v)`. -/
def pyLen : PyVal → Except PyErr Nat
  | .str s => .ok s.length
  | .list xs => .ok xs.length
  | .dict kvs => .ok kvs.length
  | _ => .error .typeError

/-- Python `for x in v`: lists yield elements, strings yield their
characters, dicts yield their keys; other values are not iterable. -/
def pyIterate : PyVal → Except PyErr (List PyVal)
  | .list xs => .ok xs
  | .str s => .ok (s.data.map fun c => .str (String.singleton c))
  | .dict kvs => .ok (kvs.map fun kv => .str kv.1)
  | _ => .error .typeError

/-- Python `", ".join(xs)`: every element must be a string. -/
def pyJoinComma (xs : List PyVal) : Except PyErr String :=
  if xs.all fun x => match x with | .str _ => true | _ => false then
    .ok (String.intercalate ", " (xs.map fun x => pyStr x))
  else
    .error .typeError

/-- Python `v[:300] + "..." if len(v) > 300 else v` (the conditional
slicing applied to `obj["text"]` in `dql_search`): slicing is defined
for strings and lists, and `+ "..."` only for strings. -/
def pyTruncate300 (v : PyVal) : Except PyErr PyVal := do
  let n ← pyLen v
  if n > 300 then
    match v with
    | .str s => .ok (.str (s.take 300 ++ "..."))
    | .list _ => .error .typeError
    | _ => .error .typeError
  else
    .ok v

/-- Round a rational to the nearest integer, ties to even (the
rounding used by Python `format(x, .3f)`). -/
def roundHalfEven (q : Rat) : Int :=
  let f : Int := q.floor
  let r : Rat := q - (f : Rat)
  if r < 1/2 then f
  else if 1/2 < r then f + 1
  else if f % 2 = 0 then f else f + 1

/-- Zero-padded three-digit rendering of `n < 1000`. -/
def pad3 (n : Nat) : String :=
  if n < 10 then "00" ++ toString n
  else if n < 100 then "0" ++ toString n
  else toString n

/-- Fixed-point `format(q, .3f)` on a rational. -/
def ratFixed3 (q : Rat) : String :=
  let m := roundHalfEven (q * 1000)
  let sign := if m < 0 then "-" else ""
  let a := m.natAbs
  sign ++ toString (a / 1000) ++ "." ++ pad3 (a % 1000)

/-- Python `:.3f` string formatting of a value: defined for ints, floats and bools (a bool is
an int in Python); every other class raises `ValueError`. -/
def fmtFixed3 : PyVal → Except PyErr String
  | .int n => .ok (ratFixed3 (n : Rat))
  | .float q => .ok (ratFixed3 q)
  | .bool b => .ok (if b then "1.000" else "0.000")
  | _ => .error .valueError

/-- Whitespace stripped from both ends of a character list. -/
def trimChars (l : List Char) : List Char :=
  ((l.dropWhile Char.isWhitespace).reverse.dropWhile Char.isWhitespace).reverse

/-- Python `str.strip()`. -/
def pyStrip (s : String) : String := String.mk (trimChars s.data)

/-! ## HTTP oracle

The HTTP client is external (`httpx`); a call is modelled as an oracle
from the outbound query-parameter mapping to either a transport
failure (an `httpx.HTTPError` such as a timeout) or a response with a
status code and a body.  `Option.none` as the body models a 2xx body
that is not parseable as JSON (`response.json()` raises). -/

inductive HttpResult where
  | resp (status : Nat) (body : Option PyVal)
  | transportFail (msg : String)

/-- An HTTP oracle: what `client.get(endpoint, params=params)` returns
for a given parameter mapping. -/
def Fetch := List (String × PyVal) → HttpResult

/-- Abstraction of `str(e)` for the `httpx.HTTPStatusError` raised by
`response.raise_for_status()` on a non-2xx status. -/
def statusText (status : Nat) : String :=
  "status " ++ toString status

/-- Python `response.raise_for_status()` raises for every non-2xx status. -/
def is2xx (status : Nat) : Bool :=
  200 ≤ status && status ≤ 299

/-! ## `dql_search` (source lines 60-115) -/

/-- The errors `dql_search` can terminate with.  `valueError` is the
uncaught `ValueError` of the parameter validation; `httpToolError` is
the `Exception` raised in `except httpx.HTTPError`; `jsonDecodeError`
is the uncaught `json.JSONDecodeError` of `response.json()`;
`uncaughtPy` is any other uncaught exception escaping the formatting
code (only `httpx.HTTPError` is caught there). -/
inductive DqlError where
  | valueError (msg : String)
  | httpToolError (msg : String)
  | jsonDecodeError
  | uncaughtPy (e : PyErr)

/-- The Python class of the exception a `dql_search` error surfaces
as.  Everything raised by an `except` clause of the source is a bare
`Exception`. -/
def DqlError.pyClass : DqlError → String
  | .valueError _ => "ValueError"
  | .httpToolError _ => "Exception"
  | .jsonDecodeError => "JSONDecodeError"
  | .uncaughtPy .typeError => "TypeError"
  | .uncaughtPy .valueError => "ValueError"
  | .uncaughtPy (.keyError _) => "KeyError"
  | .uncaughtPy .attributeError => "AttributeError"
  | .uncaughtPy .indexError => "IndexError"

/-- One result block of the search formatter (source lines 98-110):
title / URL / type / date with `N/A` defaults, then the optional
truncated text excerpt. -/
def formatObj (i : Nat) (obj : PyVal) : Except PyErr String := do
  let title ← pyGetD obj "title" (.str "N/A")
  let purl ← pyGetD obj "pageUrl" (.str "N/A")
  let ty ← pyGetD obj "type" (.str "N/A")
  let date ← pyGetD obj "date" (.str "N/A")
  let base :=
    "Result " ++ toString i ++ ":\n" ++
    "  Title: " ++ pyStr title ++ "\n" ++
    "  URL: " ++ pyStr purl ++ "\n" ++
    "  Type: " ++ pyStr ty ++ "\n" ++
    "  Date: " ++ pyStr date ++ "\n"
  let t ← pyGetD obj "text" .null
  let textLine ←
    if truthy t then do
      let txt ← pyTruncate300 t
      pure ("  Text: " ++ pyStr txt ++ "\n")
    else
      pure ""
  return base ++ textLine ++ "\n"

/-- The loop `for i, obj in enumerate(objects, i0)` over the result objects. -/
def formatObjs : Nat → List PyVal → Except PyErr String
  | _, [] => .ok ""
  | i, o :: rest => do
    let b ← formatObj i o
    let r ← formatObjs (i + 1) rest
    return b ++ r

/-- The search response formatter (source lines 93-112), applied to
the parsed JSON body. -/
def formatSearchBody (query : String) (start : Int) (data : PyVal) :
    Except PyErr String := do
  let hits ← pyGetD data "hits" (.int 0)
  let objs ← pyGetD data "objects" (.list [])
  let n ← pyLen objs
  let header :=
    "DQL Search Results for: " ++ query ++ "\n" ++
    "Total results: " ++ pyStr hits ++ "\n" ++
    "Showing " ++ toString (start + 1) ++ "-" ++ toString (start + (n : Int)) ++ "\n\n"
  let items ← pyIterate objs
  let blocks ← formatObjs 1 items
  return header ++ blocks

/-- The `dql_search` tool (source lines 60-115): validation, outbound
parameter construction, one HTTP GET through the oracle, then
formatting; only `httpx.HTTPError` is caught. -/
def dql_search (tok query : String) (num start : Int) (fetch : Fetch) :
    Except DqlError String :=
  if num < 1 ∨ num > 100 then
    .error (.valueError "num must be between 1 and 100")
  else if start < 0 then
    .error (.valueError "start must be >= 0")
  else
    let params : List (String × PyVal) :=
      [("token", .str tok), ("query", .str query), ("num", .int num),
       ("start", .int start), ("format", .str "json")]
    match fetch params with
    | .transportFail m =>
      .error (.httpToolError ("HTTP error during DQL search: " ++ m))
    | .resp status body =>
      if is2xx status then
        match body with
        | Option.none => .error .jsonDecodeError
        | some data =>
          match formatSearchBody query start data with
          | .ok s => .ok s
          | .error e => .error (.uncaughtPy e)
      else
        .error (.httpToolError ("HTTP error during DQL search: " ++ statusText status))

/-! ## `enhance_entity` (source lines 117-429) -/

/-- The arguments of the `enhance_entity` tool.  Optional string
arguments default to Python `None`, modelled as `Option.none`; the
`threshold` float is modelled as a rational. -/
structure EnhanceReq where
  type : String
  name : Option String := Option.none
  url : Option String := Option.none
  location : Option String := Option.none
  phone : Option String := Option.none
  employer : Option String := Option.none
  title : Option String := Option.none
  school : Option String := Option.none
  ip : Option String := Option.none
  id : Option String := Option.none
  threshold : Option Rat := Option.none
  size : Int := 1
  refresh : Bool := false
  search : Bool := false

/-- Python truthiness of an optional string argument (`not name`
is true both for `None` and for the empty string). -/
def optTruthy : Option String → Bool
  | some s => s != ""
  | Option.none => false

/-- The validation of `enhance_entity` (source lines 161-169) as a
Boolean: the entity type is one of the two literals, an Organization
carries a truthy `name` or `url`, and a Person carries a truthy
`name`. -/
def enhanceValid (r : EnhanceReq) : Bool :=
  (r.type == "Organization" || r.type == "Person") &&
  (if r.type == "Organization" then optTruthy r.name || optTruthy r.url else true) &&
  (if r.type == "Person" then optTruthy r.name else true)

/-- The parameter entry contributed by one optional string argument:
present under its key only when the argument is not `None` (source
lines 190-192). -/
def optStrPart (k : String) : Option String → List (String × PyVal)
  | some s => [(k, .str s)]
  | Option.none => []

/-- The `threshold` entry: present only when not `None` (source
lines 195-196). -/
def thresholdPart : Option Rat → List (String × PyVal)
  | some t => [("threshold", .float t)]
  | Option.none => []

/-- The `size` entry: present only when it differs from the default
`1` (source lines 197-198). -/
def sizePart (n : Int) : List (String × PyVal) :=
  if n ≠ 1 then [("size", .int n)] else []

/-- A boolean flag entry: present only when the flag is true, with
the literal string value `"true"` (source lines 199-202). -/
def flagPart (k : String) (b : Bool) : List (String × PyVal) :=
  if b then [(k, .str "true")] else []

/-- The outbound parameter mapping of `enhance_entity` (source lines
171-202): `token` and `type`, the nine optional inputs in dict
insertion order when not `None`, then threshold / size / refresh /
search on their respective conditions. -/
def buildEnhanceParams (tok : String) (r : EnhanceReq) : List (String × PyVal) :=
  ("token", .str tok) :: ("type", .str r.type) ::
  (optStrPart "name" r.name ++ (optStrPart "url" r.url ++
  (optStrPart "location" r.location ++ (optStrPart "phone" r.phone ++
  (optStrPart "employer" r.employer ++ (optStrPart "title" r.title ++
  (optStrPart "school" r.school ++ (optStrPart "ip" r.ip ++
  (optStrPart "id" r.id ++ (thresholdPart r.threshold ++
  (sizePart r.size ++ (flagPart "refresh" r.refresh ++
  flagPart "search" r.search))))))))))))

/-- Python `key in kvs` on the entries of a dict. -/
def hasKey (kvs : List (String × PyVal)) (k : String) : Bool :=
  (dget kvs k).isSome

/-- A first-match-wins scan over alternative key names: the value of
the first listed key present in the dict. -/
def firstKey (kvs : List (String × PyVal)) : List String → Option PyVal
  | [] => Option.none
  | k :: rest => match dget kvs k with
    | some v => some v
    | Option.none => firstKey kvs rest

/-- The debug `print` block of `enhance_entity` (source lines
213-218).  Its printed output is irrelevant, but the expressions it
evaluates can raise: `list(data.keys())` requires a dict body,
`len(data["data"])` requires a sized value, and
`data["data"][0].keys()` requires a subscriptable value whose first
element is a dict. -/
def debugProbe (data : PyVal) : Except PyErr Unit := do
  let _ ← pyKeysOwner data
  let hasData ← pyContains data "data"
  if hasData then
    let d ← pySubscr data "data"
    let _ ← pyLen d
    if truthy d then
      let f ← pySubscr0 d
      let _ ← pyKeysOwner f
      pure ()
    else
      pure ()
  else
    pure ()

/-- The match-list selection of `enhance_entity` (source lines
225-232): `entities = data["data"]` when the `data` key tests true,
else `data["results"]` when that tests true, else the body itself
when it is a list, else the initial empty list.  The `in` tests use
Python semantics, so on a list body they are membership tests. -/
def entitiesOf (data : PyVal) : Except PyErr PyVal := do
  let c1 ← pyContains data "data"
  let b1 ← if c1 then do
      let d ← pySubscr data "data"
      pure (truthy d)
    else pure false
  if b1 then
    pySubscr data "data"
  else
    let c2 ← pyContains data "results"
    let b2 ← if c2 then do
        let d ← pySubscr data "results"
        pure (truthy d)
      else pure false
    if b2 then
      pySubscr data "results"
    else
      match data with
      | .list xs => pure (.list xs)
      | _ => pure (.list [])

/-- The location lines (source lines 271-281, duplicated verbatim for
the Person branch at lines 324-334): a `location` that is a dict with
a `name` or a plain string wins; otherwise the first element of a
truthy `locations`, in either of the same two shapes.  Subscripting
`locations` with `[0]` raises for truthy non-sequence values. -/
def locationText (ekvs : List (String × PyVal)) : Except PyErr String :=
  match dget ekvs "location" with
  | some v =>
    match v with
    | .dict dkvs =>
      match dget dkvs "name" with
      | some nv => .ok ("  Location: " ++ pyStr nv ++ "\n")
      | Option.none => .ok ""
    | .str sv => .ok ("  Location: " ++ sv ++ "\n")
    | _ => .ok ""
  | Option.none =>
    match dget ekvs "locations" with
    | some lv =>
      if truthy lv then do
        let loc ← pySubscr0 lv
        match loc with
        | .dict dkvs =>
          match dget dkvs "name" with
          | some nv => .ok ("  Location: " ++ pyStr nv ++ "\n")
          | Option.none => .ok ""
        | .str sv => .ok ("  Location: " ++ sv ++ "\n")
        | _ => .ok ""
      else .ok ""
    | Option.none => .ok ""

/-- The website line (source lines 264-268). -/
def websiteText (ekvs : List (String × PyVal)) : String :=
  match firstKey ekvs ["homepageUri", "website", "url", "homepage"] with
  | some v => "  Website: " ++ pyStr v ++ "\n"
  | Option.none => ""

/-- The revenue line (source lines 284-288). -/
def revenueText (ekvs : List (String × PyVal)) : String :=
  match firstKey ekvs ["revenue", "annualRevenue", "yearlyRevenue"] with
  | some v => "  Revenue: " ++ pyStr v ++ "\n"
  | Option.none => ""

/-- The three alternative employee min/max key pairs (source lines
290-294). -/
def employeePairs : List (String × String) :=
  [("nbEmployeesMin", "nbEmployeesMax"),
   ("employeesMin", "employeesMax"),
   ("employeeCountMin", "employeeCountMax")]

/-- The employee range line for one matching pair. -/
def employeeRangeLine (ekvs : List (String × PyVal)) (mn mx : String) : String :=
  "  Employees: " ++ pyStr ((dget ekvs mn).getD (.str "N/A")) ++ " - " ++
    pyStr ((dget ekvs mx).getD (.str "N/A")) ++ "\n"

/-- The single-count employee line. -/
def employeeNbLine (ekvs : List (String × PyVal)) : String :=
  "  Employees: " ++ pyStr ((dget ekvs "nbEmployees").getD .null) ++ "\n"

/-- The employee loop of the Organization branch (source lines
295-302).  As in the source, the `nbEmployees` fallback is an `elif`
inside the loop without a `break`, so it emits a line at every pair
that does not match. -/
def employeesLoop (ekvs : List (String × PyVal)) :
    List (String × String) → String
  | [] => ""
  | (mn, mx) :: rest =>
    if hasKey ekvs mn || hasKey ekvs mx then
      employeeRangeLine ekvs mn mx
    else if hasKey ekvs "nbEmployees" then
      employeeNbLine ekvs ++ employeesLoop ekvs rest
    else
      employeesLoop ekvs rest

/-- The industry line (source lines 305-312): first key wins, a list
value is joined with `", "` (which raises for non-string elements). -/
def industryText (ekvs : List (String × PyVal)) : Except PyErr String :=
  match firstKey ekvs ["industry", "industries", "category", "categories"] with
  | some v =>
    match v with
    | .list xs => do
      let j ← pyJoinComma xs
      .ok ("  Industry: " ++ j ++ "\n")
    | _ => .ok ("  Industry: " ++ pyStr v ++ "\n")
  | Option.none => .ok ""

/-- The description line (source lines 314-320): `str()` of the first
value of the first present key, truncated to 200 characters with an ellipsis. -/
def descriptionText (ekvs : List (String × PyVal)) : String :=
  match firstKey ekvs ["description", "summary", "about"] with
  | some v =>
    let d := pyStr v
    let d := if d.length > 200 then d.take 200 ++ "..." else d
    "  Description: " ++ d ++ "\n"
  | Option.none => ""

/-- The employer/title lines for one current job dict (source lines
345-356). -/
def currentJobText (ckvs : List (String × PyVal)) : String :=
  let empLine :=
    match dget ckvs "employer" with
    | some e =>
      match e with
      | .dict ekvs2 =>
        match dget ekvs2 "name" with
        | some nv => "  Current Employer: " ++ pyStr nv ++ "\n"
        | Option.none => ""
      | .str s => "  Current Employer: " ++ s ++ "\n"
      | _ => ""
    | Option.none => ""
  let titleLine :=
    match firstKey ckvs ["title", "position", "role"] with
    | some tv => "  Title: " ++ pyStr tv ++ "\n"
    | Option.none => ""
  empLine ++ titleLine

/-- The employment loop of the Person branch (source lines 337-357):
the first present and truthy key wins; a list value contributes its
first element; only a dict current job yields any lines. -/
def employmentLoop (ekvs : List (String × PyVal)) :
    List String → Except PyErr String
  | [] => .ok ""
  | f :: rest =>
    match dget ekvs f with
    | some v =>
      if truthy v then do
        let current ←
          match v with
          | .list xs =>
            match xs.head? with
            | some h => Except.ok h
            | Option.none => Except.error PyErr.indexError
          | _ => Except.ok v
        match current with
        | .dict ckvs => .ok (currentJobText ckvs)
        | _ => .ok ""
      else employmentLoop ekvs rest
    | Option.none => employmentLoop ekvs rest

/-- The institution-name resolution for one education entry (source
lines 366-372): nested `institution.name`, else `str(school)`, else
the raw `name` value; non-dict entries contribute nothing.  The
`school` value is passed through `str()`, the other two are appended
raw (so a later join can raise on non-string values). -/
def eduName (edu : PyVal) : Option PyVal :=
  match edu with
  | .dict dkvs =>
    let instOk :=
      match dget dkvs "institution" with
      | some (.dict ikvs) => hasKey ikvs "name"
      | _ => false
    if instOk then
      match dget dkvs "institution" with
      | some (.dict ikvs) => dget ikvs "name"
      | _ => Option.none
    else
      match dget dkvs "school" with
      | some sv => some (.str (pyStr sv))
      | Option.none => dget dkvs "name"
  | _ => Option.none

/-- The education loop of the Person branch (source lines 360-375):
first present and truthy key wins; only a list value contributes, via
the resolved names of its first two entries joined with `", "`. -/
def educationLoop (ekvs : List (String × PyVal)) :
    List String → Except PyErr String
  | [] => .ok ""
  | f :: rest =>
    match dget ekvs f with
    | some v =>
      if truthy v then
        match v with
        | .list xs =>
          let schools := (xs.take 2).filterMap eduName
          if schools.isEmpty then .ok ""
          else do
            let j ← pyJoinComma schools
            .ok ("  Education: " ++ j ++ "\n")
        | _ => .ok ""
      else educationLoop ekvs rest
    | Option.none => educationLoop ekvs rest

/-- The Diffbot URI line (source lines 378-382). -/
def uriText (ekvs : List (String × PyVal)) : String :=
  match firstKey ekvs ["diffbotUri", "uri", "id", "diffbotId"] with
  | some v => "  Diffbot URI: " ++ pyStr v ++ "\n"
  | Option.none => ""

/-- The social field-to-platform mapping (source lines 385-396) in
dict insertion order. -/
def socialPairs : List (String × String) :=
  [("twitterUri", "Twitter"), ("twitter", "Twitter"), ("twitterUrl", "Twitter"),
   ("linkedInUri", "LinkedIn"), ("linkedin", "LinkedIn"),
   ("linkedinUri", "LinkedIn"), ("linkedInUrl", "LinkedIn"),
   ("facebookUri", "Facebook"), ("facebook", "Facebook"),
   ("facebookUrl", "Facebook")]

/-- The social media line (source lines 398-404): all present truthy
keys contribute (not first-wins), joined with `", "`. -/
def socialText (ekvs : List (String × PyVal)) : String :=
  let links := socialPairs.filterMap fun fp =>
    match dget ekvs fp.1 with
    | some v => if truthy v then some (fp.2 ++ ": " ++ pyStr v) else Option.none
    | Option.none => Option.none
  if links.isEmpty then ""
  else "  Social Media: " ++ String.intercalate ", " links ++ "\n"

/-- The extra-field keys with their display labels (source lines
407-411).  Each label is the value of the replace-then-title chain of the
source: field.replace("foundedYear", "Founded").replace("ticker",
"Stock Ticker").replace("ceo", "CEO").replace("headquarters",
"Headquarters").title(), evaluated here per key (note that the
title() of "CEO" is "Ceo"). -/
def extraPairs : List (String × String) :=
  [("founded", "Founded"), ("foundedYear", "Founded"),
   ("ticker", "Stock Ticker"), ("stock", "Stock"),
   ("ceo", "Ceo"), ("headquarters", "Headquarters")]

/-- The extra-field lines (source lines 407-411): every present
truthy key contributes a line under its label. -/
def extraText (ekvs : List (String × PyVal)) : String :=
  String.join (extraPairs.map fun fp =>
    match dget ekvs fp.1 with
    | some v =>
      if truthy v then "  " ++ fp.2 ++ ": " ++ pyStr v ++ "\n" else ""
    | Option.none => "")

/-- The divider `"-" * 40`. -/
def dashes40 : String := String.mk (List.replicate 40 '-')

/-- The rule `"=" * 50`. -/
def eq50 : String := String.mk (List.replicate 50 '=')

/-- The opening of one match block (source lines 236-247): the
divider before every match but the first, the `Match #i` header, the
confidence score formatted with `:.3f` when a `score` key is present
(raising for non-numeric scores), and the `errors` line when present
and truthy. -/
def matchIntro (i : Nat) (m : PyVal) : Except PyErr String := do
  let pre := (if i > 1 then "\n" ++ dashes40 ++ "\n\n" else "") ++
    "Match #" ++ toString i ++ ":\n"
  let hasScore ← pyContains m "score"
  let scoreLine ←
    if hasScore then do
      let sc ← pySubscr m "score"
      let f ← fmtFixed3 sc
      pure ("  Confidence Score: " ++ f ++ "\n")
    else pure ""
  let hasErrs ← pyContains m "errors"
  let errsLine ←
    if hasErrs then do
      let ev ← pySubscr m "errors"
      pure (if truthy ev then "  Errors: " ++ pyStr ev ++ "\n" else "")
    else pure ""
  return pre ++ scoreLine ++ errsLine

/-- The `Entity fields:` debug line (source line 256): `str()` of the
list of the keys of the entity dict. -/
def entityFieldsLine (ekvs : List (String × PyVal)) : String :=
  "  Entity fields: " ++ pyStr (.list (ekvs.map fun kv => .str kv.1)) ++ "\n"

/-- The Organization-specific field lines (source lines 262-320). -/
def orgText (ekvs : List (String × PyVal)) : Except PyErr String := do
  let loc ← locationText ekvs
  let ind ← industryText ekvs
  return websiteText ekvs ++ loc ++ revenueText ekvs ++
    employeesLoop ekvs employeePairs ++ ind ++ descriptionText ekvs

/-- The Person-specific field lines (source lines 322-375). -/
def personText (ekvs : List (String × PyVal)) : Except PyErr String := do
  let loc ← locationText ekvs
  let emp ← employmentLoop ekvs
    ["employments", "employment", "jobs", "currentEmployment"]
  let edu ← educationLoop ekvs ["educations", "education", "schools"]
  return loc ++ emp ++ edu

/-- The per-entity field lines after the `Entity fields:` line
(source lines 259-411): name, the type-specific branch selected by
`type == "Organization"`, then the common URI / social / extra
lines. -/
def entityText (ty : String) (ekvs : List (String × PyVal)) :
    Except PyErr String := do
  let nameLine :=
    match dget ekvs "name" with
    | some v => "  Name: " ++ pyStr v ++ "\n"
    | Option.none => ""
  let mid ← if ty = "Organization" then orgText ekvs else personText ekvs
  return nameLine ++ mid ++ uriText ekvs ++ socialText ekvs ++ extraText ekvs

/-- One full match block (source lines 235-413): the intro, then
`match.get("entity", ...)` with a fresh empty dict default; a falsy entity yields the no-data note and
skips the rest of the loop body (`continue`), a truthy non-dict
entity raises at `entity.keys()`, and a truthy dict entity yields the
fields line, the per-entity lines, and the trailing blank line. -/
def formatMatch (ty : String) (i : Nat) (m : PyVal) : Except PyErr String :=
  match matchIntro i m with
  | .error e => .error e
  | .ok intro =>
    match pyGetD m "entity" (.dict []) with
    | .error e => .error e
    | .ok entity =>
      if truthy entity then
        match entity with
        | .dict ekvs =>
          match entityText ty ekvs with
          | .error e => .error e
          | .ok rest => .ok (intro ++ entityFieldsLine ekvs ++ rest ++ "\n")
        | _ => .error .attributeError
      else
        .ok (intro ++ "  No entity data found in this match.\n")

/-- The loop `for i, match in enumerate(entities, i0)` over the matches. -/
def formatMatches (ty : String) : Nat → List PyVal → Except PyErr String
  | _, [] => .ok ""
  | i, m :: rest =>
    match formatMatch ty i m with
    | .error e => .error e
    | .ok s =>
      match formatMatches ty (i + 1) rest with
      | .error e => .error e
      | .ok srest => .ok (s ++ srest)

/-- The resolved display name of the entity type (source line 221):
`"Organization" if type == "Organization" else "Person"`. -/
def entityTypeName (ty : String) : String :=
  if ty = "Organization" then "Organization" else "Person"

/-- The report header (source lines 222-223). -/
def enhanceHeader (ty : String) : String :=
  "Enhanced " ++ entityTypeName ty ++ " Data:\n" ++ eq50 ++ "\n\n"

/-- The no-match message with its three static suggestions (source
lines 415-420); `entity_type.lower()` evaluated for the two possible
display names. -/
def noMatchText (ty : String) : String :=
  "No " ++ (if ty = "Organization" then "organization" else "person") ++
  " found matching the provided criteria.\n" ++
  "Try:\n" ++
  "- Adding more input parameters (location, url, etc.)\n" ++
  "- Lowering the threshold parameter\n" ++
  "- Using search=True to search beyond the Knowledge Graph\n"

/-- The enhance response formatter (source lines 213-422), applied to
the parsed JSON body: the debug probe, the header, the match-list
selection, then either the numbered match blocks or the no-match
message, with a final `strip()`. -/
def formatEnhanceBody (ty : String) (data : PyVal) : Except PyErr String :=
  match debugProbe data with
  | .error e => .error e
  | .ok _ =>
    match entitiesOf data with
    | .error e => .error e
    | .ok entities =>
      if truthy entities then
        match pyIterate entities with
        | .error e => .error e
        | .ok items =>
          match formatMatches ty 1 items with
          | .error e => .error e
          | .ok body => .ok (pyStrip (enhanceHeader ty ++ body))
      else
        .ok (pyStrip (enhanceHeader ty ++ noMatchText ty))

/-- The errors `enhance_entity` can terminate with: the uncaught
validation `ValueError`, and the three `Exception`s raised by the
`except httpx.HTTPError` / `except KeyError` / `except Exception`
clauses (source lines 424-429). -/
inductive EnhError where
  | valueError (msg : String)
  | httpToolError (msg : String)
  | unexpectedFormat (k : String)
  | genericError (e : PyErr)

/-- The Python class of the exception an `enhance_entity` error
surfaces as; every `except` clause raises a bare `Exception`. -/
def EnhError.pyClass : EnhError → String
  | .valueError _ => "ValueError"
  | .httpToolError _ => "Exception"
  | .unexpectedFormat _ => "Exception"
  | .genericError _ => "Exception"

/-- How an exception escaping the response handling is wrapped by the
`except` clauses (source lines 424-429): `httpx.HTTPError` is handled
separately before this point, `KeyError` becomes the
"Unexpected response format" `Exception`, and anything else the
"Error enhancing entity" `Exception`. -/
def wrapEnh : PyErr → EnhError
  | .keyError k => .unexpectedFormat k
  | e => .genericError e

/-- The network-and-formatting stage of `enhance_entity` (source
lines 204-429), reached only after validation passes: one HTTP GET
with the mapping built by `buildEnhanceParams`, `raise_for_status`,
`response.json()` (whose parse failure is wrapped by the catch-all
clause), then the formatter, with the `except` clauses above. -/
def enhanceNet (tok : String) (r : EnhanceReq) (fetch : Fetch) :
    Except EnhError String :=
  match fetch (buildEnhanceParams tok r) with
  | .transportFail m =>
    .error (.httpToolError ("HTTP error during entity enhancement: " ++ m))
  | .resp status body =>
    if is2xx status then
      match body with
      | Option.none => .error (.genericError .valueError)
      | some data =>
        match formatEnhanceBody r.type data with
        | .ok s => .ok s
        | .error e => .error (wrapEnh e)
    else
      .error (.httpToolError ("HTTP error during entity enhancement: " ++ statusText status))

/-- The `enhance_entity` tool (source lines 117-429): the three
validation checks of lines 161-169 (uncaught `ValueError`s, raised
before any network access), then `enhanceNet`. -/
def enhance_entity (tok : String) (r : EnhanceReq) (fetch : Fetch) :
    Except EnhError String :=
  if r.type ≠ "Organization" ∧ r.type ≠ "Person" then
    .error (.valueError "type must be either \x27Person\x27 or \x27Organization\x27")
  else if r.type = "Organization" ∧ ¬(optTruthy r.name || optTruthy r.url) then
    .error (.valueError "For Organizations, either \x27name\x27 or \x27url\x27 is required")
  else if r.type = "Person" ∧ ¬ optTruthy r.name then
    .error (.valueError "For Persons, \x27name\x27 is required")
  else
    enhanceNet tok r fetch

/-! ## Specification-side definitions

The following definitions are written from the words of the
specification (not from the source); the theorems below compare the
embedded source against them. -/

/-- The match-list location as the spec words it: check a `data` key,
then a `results` key, then treat the body itself as a list when it is
one; first non-empty (truthy) value wins, otherwise the empty list. -/
def specLocate (body : PyVal) : PyVal :=
  match body with
  | .dict kvs =>
    match dget kvs "data" with
    | some v =>
      if truthy v then v
      else
        match dget kvs "results" with
        | some w => if truthy w then w else .list []
        | Option.none => .list []
    | Option.none =>
      match dget kvs "results" with
      | some w => if truthy w then w else .list []
      | Option.none => .list []
  | .list xs => .list xs
  | _ => .list []

/-- The full no-match report as the spec words it: the header, then
the "no entity found" message and the three static suggestions, with
no trailing whitespace. -/
def specNoMatchFull (ty : String) : String :=
  "Enhanced " ++ (if ty = "Organization" then "Organization" else "Person") ++
  " Data:\n" ++ eq50 ++ "\n\n" ++
  "No " ++ (if ty = "Organization" then "organization" else "person") ++
  " found matching the provided criteria.\n" ++
  "Try:\n" ++
  "- Adding more input parameters (location, url, etc.)\n" ++
  "- Lowering the threshold parameter\n" ++
  "- Using search=True to search beyond the Knowledge Graph"

/-- Typing side condition for one search record: a `text` field, when
present, is a string. -/
def textOkRecord (okvs : List (String × PyVal)) : Bool :=
  match dget okvs "text" with
  | some (.str _) => true
  | some _ => false
  | Option.none => true

/-- One search result block as the spec words it: title / URL / type
/ date with `N/A` defaults, then a text excerpt exactly when `text`
is present and non-empty, truncated with an ellipsis marker exactly
when longer than 300 characters. -/
def specSearchBlock (i : Nat) (okvs : List (String × PyVal)) : String :=
  "Result " ++ toString i ++ ":\n" ++
  "  Title: " ++ pyStr ((dget okvs "title").getD (.str "N/A")) ++ "\n" ++
  "  URL: " ++ pyStr ((dget okvs "pageUrl").getD (.str "N/A")) ++ "\n" ++
  "  Type: " ++ pyStr ((dget okvs "type").getD (.str "N/A")) ++ "\n" ++
  "  Date: " ++ pyStr ((dget okvs "date").getD (.str "N/A")) ++ "\n" ++
  (match dget okvs "text" with
   | some (.str s) =>
     if s = "" then ""
     else "  Text: " ++ (if s.length > 300 then s.take 300 ++ "..." else s) ++ "\n"
   | _ => "") ++
  "\n"

/-- The search result blocks, numbered from `i` in input order. -/
def specSearchBlocks : Nat → List (List (String × PyVal)) → String
  | _, [] => ""
  | i, o :: rest => specSearchBlock i o ++ specSearchBlocks (i + 1) rest

/-- The full search report as the spec words it: a header with the
query text, the hits total (defaulting to 0 when absent) and the
1-based inclusive range, then one block per record. -/
def specSearchText (q : String) (st : Int) (hits : Option PyVal)
    (objs : List (List (String × PyVal))) : String :=
  "DQL Search Results for: " ++ q ++ "\n" ++
  "Total results: " ++ pyStr (hits.getD (.int 0)) ++ "\n" ++
  "Showing " ++ toString (st + 1) ++ "-" ++ toString (st + (objs.length : Int)) ++
  "\n\n" ++ specSearchBlocks 1 objs

/-- The employee lines the source actually produces, in closed form:
the first matching min/max pair yields the range line and stops the
scan, but the `nbEmployees` fallback line is emitted once at every
pair scanned without a match. -/
def specEmployeesText (ekvs : List (String × PyVal)) : String :=
  let nb := if hasKey ekvs "nbEmployees" then employeeNbLine ekvs else ""
  if hasKey ekvs "nbEmployeesMin" || hasKey ekvs "nbEmployeesMax" then
    employeeRangeLine ekvs "nbEmployeesMin" "nbEmployeesMax"
  else nb ++
    (if hasKey ekvs "employeesMin" || hasKey ekvs "employeesMax" then
      employeeRangeLine ekvs "employeesMin" "employeesMax"
    else nb ++
      (if hasKey ekvs "employeeCountMin" || hasKey ekvs "employeeCountMax" then
        employeeRangeLine ekvs "employeeCountMin" "employeeCountMax"
      else nb))

/-! ## Result extractors and concrete inputs used by the claims -/

/-- The successfully formatted text, when formatting did not raise. -/
def fmtOut : Except PyErr String → Option String
  | .ok s => some s
  | .error _ => Option.none

/-- The newline-separated lines of a character list. -/
def linesSplit : List Char → List String
  | [] => [""]
  | c :: rest =>
    let r := linesSplit rest
    if c = '\n' then "" :: r
    else (String.singleton c ++ r.headD "") :: r.tail

/-- The newline-separated lines of a string. -/
def linesOf (s : String) : List String := linesSplit s.data

/-- Whether a line starts with the given marker. -/
def lineStart (l pre : String) : Bool := pre.data.isPrefixOf l.data

/-- The lines of a successfully formatted report that are Location
lines. -/
def locLines : Except PyErr String → List String
  | .ok s => (linesOf s).filter fun l => lineStart l "  Location:"
  | .error _ => []

/-- How many lines of a successfully formatted report are Employees
lines. -/
def empLineCount : Except PyErr String → Option Nat
  | .ok s => some ((linesOf s).filter fun l => lineStart l "  Employees:").length
  | .error _ => Option.none

/-- The Python class of the exception a failed `dql_search` call
raises, when it failed. -/
def dqlErrClass : Except DqlError String → Option String
  | .ok _ => Option.none
  | .error e => some e.pyClass

/-- The Python class of the exception a failed `enhance_entity` call
raises, when it failed. -/
def enhErrClass : Except EnhError String → Option String
  | .ok _ => Option.none
  | .error e => some e.pyClass

/-- Whether an `enhance_entity` result is the validation
`ValueError` (the InvalidArgument case of the spec). -/
def isValueErrorEnh : Except EnhError String → Bool
  | .error (.valueError _) => true
  | _ => false

/-- The parameter keys `buildEnhanceParams` may emit. -/
def allowedParamKeys : List String :=
  ["token", "type", "name", "url", "location", "phone", "employer",
   "title", "school", "ip", "id", "threshold", "size", "refresh", "search"]

/-- The outbound-mapping contract of the spec for `enhance_entity`:
`token` and `type` are present; each optional input is present under
its own key exactly when set (so no unset field appears in any form);
`threshold` when set; `size` exactly when it differs from the default
`1`; the boolean flags exactly when true, as the literal string
`"true"`; and no other key at all. -/
def enhanceParamsSpec (tok : String) (r : EnhanceReq) : Prop :=
  let P := buildEnhanceParams tok r
  dget P "token" = some (.str tok) ∧
  dget P "type" = some (.str r.type) ∧
  dget P "name" = r.name.map PyVal.str ∧
  dget P "url" = r.url.map PyVal.str ∧
  dget P "location" = r.location.map PyVal.str ∧
  dget P "phone" = r.phone.map PyVal.str ∧
  dget P "employer" = r.employer.map PyVal.str ∧
  dget P "title" = r.title.map PyVal.str ∧
  dget P "school" = r.school.map PyVal.str ∧
  dget P "ip" = r.ip.map PyVal.str ∧
  dget P "id" = r.id.map PyVal.str ∧
  dget P "threshold" = r.threshold.map PyVal.float ∧
  dget P "size" = (if r.size = 1 then Option.none else some (.int r.size)) ∧
  dget P "refresh" = (if r.refresh then some (.str "true") else Option.none) ∧
  dget P "search" = (if r.search then some (.str "true") else Option.none) ∧
  ∀ kv ∈ P, kv.1 ∈ allowedParamKeys

/-- A well-formed Organization request with only a name. -/
def reqOrgAcme : EnhanceReq := { type := "Organization", name := some "Acme" }

/-- A 2xx enhance body whose single match carries a non-numeric
score. -/
def bodyScoreStr : PyVal :=
  .dict [("data", .list [.dict [("score", .str "high")]])]

/-- A 2xx enhance body whose single match carries an industry list
with a non-string element. -/
def bodyIndustryBad : PyVal :=
  .dict [("data", .list [.dict [("entity",
    .dict [("industry", .list [.int 1])])]])]

/-- A 2xx enhance body whose single match carries a location of an
unexpected shape (a number). -/
def bodyLocDegrade : PyVal :=
  .dict [("data", .list [.dict [("entity",
    .dict [("name", .str "A"), ("location", .int 5)])]])]

/-- A 2xx enhance body whose single match only carries a single
`nbEmployees` count. -/
def bodyNbEmployees : PyVal :=
  .dict [("data", .list [.dict [("entity",
    .dict [("name", .str "X"), ("nbEmployees", .int 50)])]])]

/-- An enhance body whose entity carries the list-of-object
`locations` form. -/
def bodyLocsNYC : PyVal :=
  .dict [("data", .list [.dict [("entity",
    .dict [("locations", .list [.dict [("name", .str "NYC")]])])]])]

/-- An enhance body whose entity carries the plain-string `location`
form. -/
def bodyLocNYC : PyVal :=
  .dict [("data", .list [.dict [("entity",
    .dict [("location", .str "NYC")])]])]

/-! ## Shared lemmas -/

theorem dget_append (a b : List (String × PyVal)) (k : String) :
    dget (a ++ b) k = match dget a k with
      | some v => some v
      | Option.none => dget b k := by
  induction a with
  | nil => simp [dget]
  | cons hd tl ih =>
    obtain ⟨k', v⟩ := hd
    by_cases h : k' = k <;> simp [dget, h, ih]

theorem dget_optStrPart (k k' : String) (v : Option String) :
    dget (optStrPart k v) k' =
      if k = k' then v.map PyVal.str else Option.none := by
  cases v <;> by_cases h : k = k' <;> simp [optStrPart, dget, h]

theorem dget_thresholdPart (k' : String) (v : Option Rat) :
    dget (thresholdPart v) k' =
      if "threshold" = k' then v.map PyVal.float else Option.none := by
  cases v <;> by_cases h : "threshold" = k' <;> simp [thresholdPart, dget, h]

theorem dget_sizePart (k' : String) (n : Int) :
    dget (sizePart n) k' =
      if "size" = k' then
        (if n = 1 then Option.none else some (.int n))
      else Option.none := by
  by_cases hn : n = 1 <;> by_cases h : "size" = k' <;>
    simp [sizePart, dget, hn, h]

theorem dget_flagPart (k k' : String) (b : Bool) :
    dget (flagPart k b) k' =
      if k = k' then
        (if b then some (.str "true") else Option.none)
      else Option.none := by
  cases b <;> by_cases h : k = k' <;> simp [flagPart, dget, h]

theorem string_append_empty (s : String) : s ++ "" = s := by
  simp

/-! ## C2: employee range resolution -/

/-- C2 (counterexample): on a match whose entity carries only a
single `nbEmployees` count, the Organization formatter emits three
`Employees:` lines, not at most one as claimed: the `nbEmployees`
fallback branch of the source (line 301) is an `elif` inside the
key-pair loop without a `break`, so it fires at every non-matching
pair. -/
theorem C2_counterexample :
    empLineCount (formatEnhanceBody "Organization" bodyNbEmployees) = some 3 := by
  rfl

/-- C2 (amended): the employee-range scan tries the three min/max
pairs in order and the first present pair wins and ends the scan; but
the single-count `nbEmployees` fallback is re-evaluated at every pair
that does not match, emitting one count line per non-matching pair
scanned (three identical lines when no pair matches and `nbEmployees`
is present), instead of at most one `Employees:` line. -/
theorem C2_amended (ekvs : List (String × PyVal)) :
    employeesLoop ekvs employeePairs = specEmployeesText ekvs := by
  simp only [employeesLoop, employeePairs, specEmployeesText]
  by_cases h1 : (hasKey ekvs "nbEmployeesMin" || hasKey ekvs "nbEmployeesMax") = true <;>
  by_cases h2 : (hasKey ekvs "employeesMin" || hasKey ekvs "employeesMax") = true <;>
  by_cases h3 : (hasKey ekvs "employeeCountMin" || hasKey ekvs "employeeCountMax") = true <;>
  by_cases hnb : hasKey ekvs "nbEmployees" = true <;>
  simp [h1, h2, h3, hnb]

/-! ## C1: per-match failure policy -/

/-- C1 (counterexample): a parsed 2xx enhance body whose single match
carries the non-numeric score `"high"` makes `enhance_entity` raise
(the `:.3f` formatting raises `ValueError`, which the catch-all
`except Exception` clause of lines 428-429 converts into a raised
`Exception`), contradicting the claim that malformed shapes inside a
single match never cause `enhance_entity` to raise. -/
theorem C1_counterexample :
    enhErrClass (enhance_entity "tok" reqOrgAcme
      (fun _ => .resp 200 (some bodyScoreStr))) = some "Exception" := by
  rfl

/-- C1 (amended): malformed shapes inside a single match are not
uniformly absorbed.  Shapes that reach a raising operation fail the
whole call: a non-numeric score raises at the `:.3f` formatting, and
an industry list with a non-string element raises at the `", ".join`.
Shapes guarded by an `isinstance` check degrade to omitted lines: a
numeric `location` value yields a report without a Location line and
no error. -/
theorem C1_amended :
    formatEnhanceBody "Organization" bodyScoreStr = .error .valueError ∧
    formatEnhanceBody "Organization" bodyIndustryBad = .error .typeError ∧
    locLines (formatEnhanceBody "Organization" bodyLocDegrade) = [] ∧
    fmtOut (formatEnhanceBody "Organization" bodyLocDegrade) =
      some ("Enhanced Organization Data:\n" ++ eq50 ++
        "\n\nMatch #1:\n  Entity fields: [\x27name\x27, \x27location\x27]\n  Name: A") := by
  exact ⟨rfl, rfl, rfl, rfl⟩

/-! ## C3: 401 handling -/

/-- C3 (counterexample): a 401 response is surfaced exactly like any
other non-2xx response: both tools raise a bare `Exception` from the
single `except httpx.HTTPError` clause for 401 and for 500 alike, so
no distinct Unauthorized error kind exists. -/
theorem C3_counterexample :
    dqlErrClass (dql_search "tok" "q" 10 0 (fun _ => .resp 401 Option.none)) =
      some "Exception" ∧
    dqlErrClass (dql_search "tok" "q" 10 0 (fun _ => .resp 500 Option.none)) =
      some "Exception" ∧
    enhErrClass (enhance_entity "tok" reqOrgAcme (fun _ => .resp 401 Option.none)) =
      some "Exception" ∧
    enhErrClass (enhance_entity "tok" reqOrgAcme (fun _ => .resp 500 Option.none)) =
      some "Exception" := by
  exact ⟨rfl, rfl, rfl, rfl⟩

/-- Validation passes exactly when `enhanceValid` holds, in which
case `enhance_entity` is its network stage. -/
theorem enhance_entity_of_valid (tok : String) (r : EnhanceReq) (fetch : Fetch)
    (h : enhanceValid r = true) :
    enhance_entity tok r fetch = enhanceNet tok r fetch := by
  unfold enhance_entity
  split_ifs with hc1 hc2 hc3
  · exfalso
    simp only [enhanceValid, Bool.and_eq_true, Bool.or_eq_true, beq_iff_eq] at h
    rcases h.1.1 with hO | hP
    · exact hc1.1 hO
    · exact hc1.2 hP
  · exfalso
    simp only [enhanceValid, hc2.1, Bool.and_eq_true, Bool.or_eq_true,
      beq_iff_eq] at h
    simp at h
    rcases h with h | h <;> exact hc2.2 (by simp [h])
  · exfalso
    simp only [enhanceValid, hc3.1, Bool.and_eq_true, Bool.or_eq_true,
      beq_iff_eq] at h
    simp at h
    exact hc3.2 h
  · rfl

/-- The network stage never produces the validation `ValueError`: any
exception it raises comes from an `except` clause and is a bare
`Exception`. -/
theorem enhanceNet_not_valueError (tok : String) (r : EnhanceReq) (fetch : Fetch) :
    isValueErrorEnh (enhanceNet tok r fetch) = false := by
  unfold enhanceNet
  cases fetch (buildEnhanceParams tok r) with
  | transportFail m => rfl
  | resp status body =>
    by_cases h : is2xx status = true
    · simp only [h, if_true]
      cases body with
      | none => rfl
      | some data =>
        dsimp only
        cases hf : formatEnhanceBody r.type data with
        | ok s => rfl
        | error e => cases e <;> rfl
    · simp only [Bool.not_eq_true] at h
      simp [h, isValueErrorEnh]

/-- C3 (amended): every non-2xx status is handled uniformly: both
tools fail with the same generic wrapped-HTTP-error kind (a bare
`Exception` whose message only differs in the embedded status text),
with no 401-specific error kind. -/
theorem C3_amended (tok q : String) (st : Nat) (b : Option PyVal)
    (r : EnhanceReq) (h : is2xx st = false) (hr : enhanceValid r = true) :
    dql_search tok q 10 0 (fun _ => .resp st b) =
      .error (.httpToolError ("HTTP error during DQL search: " ++ statusText st)) ∧
    enhance_entity tok r (fun _ => .resp st b) =
      .error (.httpToolError ("HTTP error during entity enhancement: " ++ statusText st)) := by
  constructor
  · unfold dql_search
    rw [if_neg (by norm_num), if_neg (by norm_num)]
    simp [h]
  · rw [enhance_entity_of_valid tok r _ hr]
    unfold enhanceNet
    simp [h]

/-- C3 (amended) witness at the 401 / valid-Organization instance. -/
theorem C3_amended_witness :
    is2xx 401 = false ∧ enhanceValid reqOrgAcme = true ∧
    (dql_search "tok" "q" 10 0 (fun _ => .resp 401 Option.none) =
      .error (.httpToolError ("HTTP error during DQL search: " ++ statusText 401)) ∧
    enhance_entity "tok" reqOrgAcme (fun _ => .resp 401 Option.none) =
      .error (.httpToolError ("HTTP error during entity enhancement: " ++ statusText 401))) :=
  ⟨rfl, rfl, C3_amended "tok" "q" 401 Option.none reqOrgAcme rfl rfl⟩

/-! ## C8: the two location forms -/

/-- C8 (confirmed): an entity carrying `locations = [.dict name NYC]`
renders exactly one Location line, `  Location: NYC`, identical to
the line rendered for an entity carrying the plain string
`location = "NYC"`, in both the Organization and the Person branch
(the source duplicates the same location block in both). -/
theorem C8_location_forms :
    locLines (formatEnhanceBody "Organization" bodyLocsNYC) = ["  Location: NYC"] ∧
    locLines (formatEnhanceBody "Organization" bodyLocNYC) = ["  Location: NYC"] ∧
    locLines (formatEnhanceBody "Person" bodyLocsNYC) = ["  Location: NYC"] ∧
    locLines (formatEnhanceBody "Person" bodyLocNYC) = ["  Location: NYC"] := by
  exact ⟨rfl, rfl, rfl, rfl⟩

/-! ## C9: determinism -/

/-- C9 (confirmed): both formatters are pure functions of the parsed
body and the call arguments: any two formatting runs on the same
input produce identical results (the embedding gives them no clock,
randomness or other ambient input to read). -/
theorem C9_deterministic (q : String) (st : Int) (b : PyVal) (ty : String)
    (r1 r2 e1 e2 : Except PyErr String)
    (h1 : formatSearchBody q st b = r1) (h2 : formatSearchBody q st b = r2)
    (h3 : formatEnhanceBody ty b = e1) (h4 : formatEnhanceBody ty b = e2) :
    r1 = r2 ∧ e1 = e2 := by
  subst h1 h3
  exact ⟨h2, h4⟩

/-- C9 witness at a concrete body. -/
theorem C9_deterministic_witness :
    formatSearchBody "q" 0 (.dict []) = formatSearchBody "q" 0 (.dict []) ∧
    formatEnhanceBody "Person" (.dict []) = formatEnhanceBody "Person" (.dict []) :=
  C9_deterministic "q" 0 (.dict []) "Person" _ _ _ _ rfl rfl rfl rfl

/-! ## C4: validation before any network access -/

/-- C4 (confirmed): out-of-range `num` or negative `start` makes the
search call fail with the validation `ValueError` for every HTTP
oracle (so before any network call); an enhance request violating the
minimum-field rule fails with the validation `ValueError` for every
oracle; and an Organization request with a truthy `name` or `url`
never fails with the validation `ValueError`. -/
theorem C4_validation (tok q : String) (num start : Int) (fS : Fetch)
    (r : EnhanceReq) (fE : Fetch) :
    ((num < 1 ∨ num > 100) →
      dql_search tok q num start fS =
        .error (.valueError "num must be between 1 and 100")) ∧
    (1 ≤ num → num ≤ 100 → start < 0 →
      dql_search tok q num start fS =
        .error (.valueError "start must be >= 0")) ∧
    (enhanceValid r = false → isValueErrorEnh (enhance_entity tok r fE) = true) ∧
    (r.type = "Organization" → (optTruthy r.name || optTruthy r.url) = true →
      isValueErrorEnh (enhance_entity tok r fE) = false) := by
  refine ⟨?_, ?_, ?_, ?_⟩
  · intro h
    unfold dql_search
    rw [if_pos h]
  · intro h1 h2 h3
    unfold dql_search
    rw [if_neg (by push_neg; exact ⟨by linarith, by linarith⟩), if_pos h3]
  · intro h
    unfold enhance_entity
    split_ifs with hc1 hc2 hc3
    · rfl
    · rfl
    · rfl
    · exfalso
      have hv : enhanceValid r = true := by
        by_cases hO : r.type = "Organization"
        · have hx : (optTruthy r.name || optTruthy r.url) = true := by
            by_contra hn
            exact hc2 ⟨hO, hn⟩
          simp [enhanceValid, hO, hx]
        · have hP : r.type = "Person" := by
            by_contra hn
            exact hc1 ⟨hO, hn⟩
          have hx : optTruthy r.name = true := by
            by_contra hn
            exact hc3 ⟨hP, hn⟩
          simp [enhanceValid, hP, hx]
      rw [h] at hv
      exact Bool.false_ne_true hv
  · intro hty hnu
    have hv : enhanceValid r = true := by
      simp [enhanceValid, hty, hnu]
    rw [enhance_entity_of_valid tok r fE hv]
    exact enhanceNet_not_valueError tok r fE

/-- C4 witness: `num = 0` rejected, an Organization request with
neither name nor url rejected, and the name-only Organization request
accepted, all independently of the oracle. -/
theorem C4_validation_witness :
    ((0 : Int) < 1 ∨ (0 : Int) > 100) ∧
    enhanceValid { type := "Organization" } = false ∧
    ({ type := "Organization" } : EnhanceReq).type = "Organization" ∧
    reqOrgAcme.type = "Organization" ∧
    (optTruthy reqOrgAcme.name || optTruthy reqOrgAcme.url) = true ∧
    dql_search "tok" "q" 0 0 (fun _ => .transportFail "t") =
      .error (.valueError "num must be between 1 and 100") ∧
    isValueErrorEnh (enhance_entity "tok" { type := "Organization" }
      (fun _ => .transportFail "t")) = true ∧
    isValueErrorEnh (enhance_entity "tok" reqOrgAcme
      (fun _ => .transportFail "t")) = false :=
  ⟨Or.inl (by norm_num), rfl, rfl, rfl, rfl,
    (C4_validation "tok" "q" 0 0 (fun _ => .transportFail "t")
      { type := "Organization" } (fun _ => .transportFail "t")).1
      (Or.inl (by norm_num)),
    (C4_validation "tok" "q" 0 0 (fun _ => .transportFail "t")
      { type := "Organization" } (fun _ => .transportFail "t")).2.2.1 rfl,
    (C4_validation "tok" "q" 0 0 (fun _ => .transportFail "t")
      reqOrgAcme (fun _ => .transportFail "t")).2.2.2 rfl rfl⟩

/-! ## C5: the outbound enhance parameter mapping -/

theorem option_match_id (o : Option PyVal) :
    (match o with | some v => some v | Option.none => Option.none) = o := by
  cases o <;> rfl

theorem fst_mem_optStrPart (k : String) (v : Option String)
    (kv : String × PyVal) (h : kv ∈ optStrPart k v) : kv.1 = k := by
  cases v with
  | none => simp [optStrPart] at h
  | some s =>
    simp [optStrPart] at h
    rw [h]

theorem fst_mem_thresholdPart (v : Option Rat) (kv : String × PyVal)
    (h : kv ∈ thresholdPart v) : kv.1 = "threshold" := by
  cases v with
  | none => simp [thresholdPart] at h
  | some t =>
    simp [thresholdPart] at h
    rw [h]

theorem fst_mem_sizePart (n : Int) (kv : String × PyVal)
    (h : kv ∈ sizePart n) : kv.1 = "size" := by
  unfold sizePart at h
  split_ifs at h with hn
  · simp at h
    rw [h]
  · simp at h

theorem fst_mem_flagPart (k : String) (b : Bool) (kv : String × PyVal)
    (h : kv ∈ flagPart k b) : kv.1 = k := by
  cases b <;> simp [flagPart] at h
  rw [h]

/-- C5 (confirmed): for every valid enhance request the call runs its
network stage on exactly the mapping built by `buildEnhanceParams`,
and that mapping satisfies the outbound-parameter contract: `token`
and `type` present, each optional input present under its key exactly
when set, no unset field in any form, `threshold` exactly when set,
`size` exactly when it differs from 1, the flags exactly when true as
the literal string `"true"`, and no key outside the fixed key set. -/
theorem C5_params (tok : String) (r : EnhanceReq) (fetch : Fetch)
    (h : enhanceValid r = true) :
    enhance_entity tok r fetch = enhanceNet tok r fetch ∧
    enhanceParamsSpec tok r := by
  refine ⟨enhance_entity_of_valid tok r fetch h, ?_⟩
  unfold enhanceParamsSpec
  refine ⟨?_, ?_, ?_, ?_, ?_, ?_, ?_, ?_, ?_, ?_, ?_, ?_, ?_, ?_, ?_, ?_⟩
  all_goals try (simp [buildEnhanceParams, dget, dget_append, dget_optStrPart,
    dget_thresholdPart, dget_sizePart, dget_flagPart, option_match_id]; done)
  intro kv hm
  unfold buildEnhanceParams at hm
  simp only [List.mem_cons, List.mem_append] at hm
  rcases hm with h | h | h | h | h | h | h | h | h | h | h | h | h | h | h
  · rw [h]; simp [allowedParamKeys]
  · rw [h]; simp [allowedParamKeys]
  · rw [fst_mem_optStrPart _ _ _ h]; simp [allowedParamKeys]
  · rw [fst_mem_optStrPart _ _ _ h]; simp [allowedParamKeys]
  · rw [fst_mem_optStrPart _ _ _ h]; simp [allowedParamKeys]
  · rw [fst_mem_optStrPart _ _ _ h]; simp [allowedParamKeys]
  · rw [fst_mem_optStrPart _ _ _ h]; simp [allowedParamKeys]
  · rw [fst_mem_optStrPart _ _ _ h]; simp [allowedParamKeys]
  · rw [fst_mem_optStrPart _ _ _ h]; simp [allowedParamKeys]
  · rw [fst_mem_optStrPart _ _ _ h]; simp [allowedParamKeys]
  · rw [fst_mem_optStrPart _ _ _ h]; simp [allowedParamKeys]
  · rw [fst_mem_thresholdPart _ _ h]; simp [allowedParamKeys]
  · rw [fst_mem_sizePart _ _ h]; simp [allowedParamKeys]
  · rw [fst_mem_flagPart _ _ _ h]; simp [allowedParamKeys]
  · rw [fst_mem_flagPart _ _ _ h]; simp [allowedParamKeys]

/-- C5 witness at the name-only Organization request. -/
theorem C5_params_witness :
    enhanceValid reqOrgAcme = true ∧
    (enhance_entity "tok" reqOrgAcme (fun _ => .transportFail "t") =
      enhanceNet "tok" reqOrgAcme (fun _ => .transportFail "t") ∧
    enhanceParamsSpec "tok" reqOrgAcme) :=
  ⟨rfl, C5_params "tok" reqOrgAcme (fun _ => .transportFail "t") rfl⟩

/-! ## C6: the search formatter -/

theorem ebind_ok {α β : Type} (a : α) (f : α → Except PyErr β) :
    (Except.ok a >>= f) = f a := rfl

theorem epure {α : Type} (x : α) : (pure x : Except PyErr α) = Except.ok x := rfl

theorem formatObj_dict (i : Nat) (okvs : List (String × PyVal))
    (ht : textOkRecord okvs = true) :
    formatObj i (.dict okvs) = .ok (specSearchBlock i okvs) := by
  unfold formatObj specSearchBlock
  unfold textOkRecord at ht
  cases htx : dget okvs "text" with
  | none =>
    simp [pyGetD, htx, ebind_ok, epure, truthy, pyStr]
  | some tv =>
    rw [htx] at ht
    cases tv with
    | str s =>
      by_cases hs : s = ""
      · simp [pyGetD, htx, hs, ebind_ok, epure, truthy, pyStr]
      · by_cases hl : s.length > 300
        · simp [pyGetD, htx, hs, hl, ebind_ok, epure, truthy, pyStr,
            pyTruncate300, pyLen]
        · simp [pyGetD, htx, hs, hl, ebind_ok, epure, truthy, pyStr,
            pyTruncate300, pyLen]
    | null => simp at ht
    | bool b => simp at ht
    | int n => simp at ht
    | float q => simp at ht
    | list xs => simp at ht
    | dict kvs => simp at ht

theorem formatObjs_dicts (i : Nat) (objs : List (List (String × PyVal)))
    (ht : objs.all textOkRecord = true) :
    formatObjs i (objs.map PyVal.dict) = .ok (specSearchBlocks i objs) := by
  induction objs generalizing i with
  | nil => rfl
  | cons o rest ih =>
    simp only [List.all_cons, Bool.and_eq_true] at ht
    simp only [List.map_cons, formatObjs, specSearchBlocks,
      formatObj_dict i o ht.1, ih (i + 1) ht.2, ebind_ok, epure]

/-- C6 (confirmed): on a parsed 2xx search body that is an object
whose `objects` entry (when present) is a list of records with
string-typed text fields, the formatter emits the header with the
query text, the hits total defaulting to 0, and the 1-based inclusive
range, then one block per record in input order with `N/A` defaults
and the 300-character text truncation exactly as specified. -/
theorem C6_search_format (q : String) (st : Int)
    (fields : List (String × PyVal)) (objs : List (List (String × PyVal)))
    (hobj : dget fields "objects" = some (.list (objs.map PyVal.dict)) ∨
      (dget fields "objects" = Option.none ∧ objs = []))
    (ht : objs.all textOkRecord = true) :
    formatSearchBody q st (.dict fields) =
      .ok (specSearchText q st (dget fields "hits") objs) := by
  unfold formatSearchBody specSearchText
  rcases hobj with hobj | ⟨hobj, hnil⟩
  · simp [pyGetD, hobj, ebind_ok, epure, pyLen, pyIterate,
      formatObjs_dicts 1 objs ht]
  · subst hnil
    simp [pyGetD, hobj, ebind_ok, epure, pyLen, pyIterate, formatObjs,
      specSearchBlocks]

/-- C6 witness: a concrete two-record body, one record with all
fields present and one with only a title. -/
theorem C6_search_format_witness :
    (dget [("hits", PyVal.int 2),
        ("objects", PyVal.list ([[("title", PyVal.str "A"),
          ("pageUrl", PyVal.str "u1"), ("type", PyVal.str "article"),
          ("date", PyVal.str "2024-01-01")],
          [("title", PyVal.str "B")]].map PyVal.dict))] "objects" =
      some (.list ([[("title", PyVal.str "A"), ("pageUrl", PyVal.str "u1"),
        ("type", PyVal.str "article"), ("date", PyVal.str "2024-01-01")],
        [("title", PyVal.str "B")]].map PyVal.dict)) ∨
      (dget [("hits", PyVal.int 2),
        ("objects", PyVal.list ([[("title", PyVal.str "A"),
          ("pageUrl", PyVal.str "u1"), ("type", PyVal.str "article"),
          ("date", PyVal.str "2024-01-01")],
          [("title", PyVal.str "B")]].map PyVal.dict))] "objects" =
        Option.none ∧
        ([[("title", PyVal.str "A"), ("pageUrl", PyVal.str "u1"),
          ("type", PyVal.str "article"), ("date", PyVal.str "2024-01-01")],
          [("title", PyVal.str "B")]] :
            List (List (String × PyVal))) = [])) ∧
    formatSearchBody "type:article" 0
      (.dict [("hits", PyVal.int 2),
        ("objects", PyVal.list ([[("title", PyVal.str "A"),
          ("pageUrl", PyVal.str "u1"), ("type", PyVal.str "article"),
          ("date", PyVal.str "2024-01-01")],
          [("title", PyVal.str "B")]].map PyVal.dict))]) =
      .ok (specSearchText "type:article" 0
        (dget [("hits", PyVal.int 2),
          ("objects", PyVal.list ([[("title", PyVal.str "A"),
            ("pageUrl", PyVal.str "u1"), ("type", PyVal.str "article"),
            ("date", PyVal.str "2024-01-01")],
            [("title", PyVal.str "B")]].map PyVal.dict))] "hits")
        [[("title", PyVal.str "A"), ("pageUrl", PyVal.str "u1"),
          ("type", PyVal.str "article"), ("date", PyVal.str "2024-01-01")],
          [("title", PyVal.str "B")]]) :=
  ⟨Or.inl rfl,
    C6_search_format "type:article" 0 _ _ (Or.inl rfl) rfl⟩

/-! ## C7: match-list location and the no-match message -/

/-- C7 (counterexample): a parsed 2xx enhance body that is itself a
list raises instead of being treated as the match list: the debug
statement `list(data.keys())` of source line 214 raises
`AttributeError` on any non-dict body, so an empty-list body raises a
wrapped `Exception` rather than emitting the no-entity message. -/
theorem C7_counterexample :
    formatEnhanceBody "Organization" (.list []) = .error .attributeError ∧
    enhErrClass (enhance_entity "tok" reqOrgAcme
      (fun _ => .resp 200 (some (.list [])))) = some "Exception" := by
  exact ⟨rfl, rfl⟩

/-- On an object body the match-list selection agrees with the
spec-side `specLocate`: `data` key first, then `results`, first
truthy value winning, else the empty list. -/
theorem entitiesOf_dict (kvs : List (String × PyVal)) :
    entitiesOf (.dict kvs) = .ok (specLocate (.dict kvs)) := by
  unfold entitiesOf specLocate
  cases hd : dget kvs "data" with
  | some v =>
    by_cases hv : truthy v = true
    · simp [pyContains, pySubscr, hd, hv, ebind_ok, epure]
    · simp only [Bool.not_eq_true] at hv
      cases hr : dget kvs "results" with
      | some w =>
        by_cases hw : truthy w = true
        · simp [pyContains, pySubscr, hd, hr, hv, hw, ebind_ok, epure]
        · simp only [Bool.not_eq_true] at hw
          simp [pyContains, pySubscr, hd, hr, hv, hw, ebind_ok, epure]
      | none => simp [pyContains, pySubscr, hd, hr, hv, ebind_ok, epure]
  | none =>
    cases hr : dget kvs "results" with
    | some w =>
      by_cases hw : truthy w = true
      · simp [pyContains, pySubscr, hd, hr, hw, ebind_ok, epure]
      · simp only [Bool.not_eq_true] at hw
        simp [pyContains, pySubscr, hd, hr, hw, ebind_ok, epure]
    | none => simp [pyContains, pySubscr, hd, hr, ebind_ok, epure]

/-- The stripped header-plus-message text is the spec-side no-match
report. -/
theorem strip_noMatch (ty : String) :
    pyStrip (enhanceHeader ty ++ noMatchText ty) = specNoMatchFull ty := by
  by_cases hty : ty = "Organization"
  · rw [hty]
    rfl
  · unfold enhanceHeader entityTypeName noMatchText specNoMatchFull
    simp only [if_neg hty]
    rfl

/-- C7 (amended): restricted to object bodies that survive the debug
print block of lines 213-218, the formatter locates the match list by
checking the `data` key and then the `results` key, first truthy
value winning, and emits exactly the no-entity message with its three
static suggestions when neither yields a non-empty value; but a body
that is itself a list never reaches its branch of the selection: any
non-dict body raises `AttributeError` at the debug statement
`list(data.keys())` and fails the call. -/
theorem C7_amended (ty : String) (kvs : List (String × PyVal))
    (hdbg : debugProbe (.dict kvs) = .ok ()) :
    entitiesOf (.dict kvs) = .ok (specLocate (.dict kvs)) ∧
    (truthy (specLocate (.dict kvs)) = false →
      formatEnhanceBody ty (.dict kvs) = .ok (specNoMatchFull ty)) := by
  refine ⟨entitiesOf_dict kvs, ?_⟩
  intro hfal
  unfold formatEnhanceBody
  rw [hdbg, entitiesOf_dict kvs]
  simp [hfal, strip_noMatch]

/-- C7 (amended) witness at the empty-`data` Organization body. -/
theorem C7_amended_witness :
    debugProbe (.dict [("data", PyVal.list [])]) = .ok () ∧
    truthy (specLocate (.dict [("data", PyVal.list [])])) = false ∧
    entitiesOf (.dict [("data", PyVal.list [])]) =
      .ok (specLocate (.dict [("data", PyVal.list [])])) ∧
    formatEnhanceBody "Organization" (.dict [("data", PyVal.list [])]) =
      .ok (specNoMatchFull "Organization") :=
  ⟨rfl, rfl, (C7_amended "Organization" [("data", PyVal.list [])] rfl).1,
    (C7_amended "Organization" [("data", PyVal.list [])] rfl).2 rfl⟩

/-! ## C10: the entity-fields line and the no-data note -/

/-- C10 (confirmed): in every match block that formats successfully,
a truthy entity dict puts the `Entity fields:` line (listing the keys
of the entity mapping) directly after the match intro and before all
per-attribute lines, while an absent or falsy entity ends the block
right after the `No entity data found in this match.` note with no
further field lines. -/
theorem C10_entity_fields (ty : String) (i : Nat)
    (mkvs : List (String × PyVal)) (s : String) :
    (∀ ekvs, (dget mkvs "entity").getD (.dict []) = .dict ekvs →
      truthy (.dict ekvs) = true →
      formatMatch ty i (.dict mkvs) = .ok s →
      ∃ ihd rest, matchIntro i (.dict mkvs) = .ok ihd ∧
        s = ihd ++ entityFieldsLine ekvs ++ rest) ∧
    (truthy ((dget mkvs "entity").getD (.dict [])) = false →
      formatMatch ty i (.dict mkvs) = .ok s →
      ∃ ihd, matchIntro i (.dict mkvs) = .ok ihd ∧
        s = ihd ++ "  No entity data found in this match.\n") := by
  constructor
  · intro ekvs he htr hfmt
    unfold formatMatch at hfmt
    cases hi : matchIntro i (.dict mkvs) with
    | error e =>
      rw [hi] at hfmt
      exact absurd hfmt (by simp)
    | ok ihd =>
      rw [hi] at hfmt
      dsimp only [pyGetD] at hfmt
      rw [he] at hfmt
      rw [if_pos htr] at hfmt
      dsimp only at hfmt
      cases hb : entityText ty ekvs with
      | error e =>
        rw [hb] at hfmt
        exact absurd hfmt (by simp)
      | ok rest =>
        rw [hb] at hfmt
        refine ⟨ihd, rest ++ "\n", rfl, ?_⟩
        have := Except.ok.inj hfmt
        rw [← this]
        simp [String.append_assoc]
  · intro htr hfmt
    unfold formatMatch at hfmt
    cases hi : matchIntro i (.dict mkvs) with
    | error e =>
      rw [hi] at hfmt
      exact absurd hfmt (by simp)
    | ok ihd =>
      rw [hi] at hfmt
      dsimp only [pyGetD] at hfmt
      rw [if_neg (by simp [htr])] at hfmt
      refine ⟨ihd, rfl, ?_⟩
      have := Except.ok.inj hfmt
      rw [← this]

/-- C10 witness: one match with a one-key entity, one match with no
entity data. -/
theorem C10_entity_fields_witness :
    (dget [("entity", PyVal.dict [("name", PyVal.str "A")])] "entity").getD
        (.dict []) = .dict [("name", PyVal.str "A")] ∧
    truthy (PyVal.dict [("name", PyVal.str "A")]) = true ∧
    (∃ ihd rest,
      matchIntro 1 (.dict [("entity", PyVal.dict [("name", PyVal.str "A")])]) =
        .ok ihd ∧
      "Match #1:\n  Entity fields: [\x27name\x27]\n  Name: A\n\n" =
        ihd ++ entityFieldsLine [("name", PyVal.str "A")] ++ rest) ∧
    truthy ((dget [("score", PyVal.bool true)] "entity").getD (.dict [])) =
      false ∧
    (∃ ihd, matchIntro 1 (.dict [("score", PyVal.bool true)]) = .ok ihd ∧
      "Match #1:\n  Confidence Score: 1.000\n  No entity data found in this match.\n" =
        ihd ++ "  No entity data found in this match.\n") :=
  ⟨rfl, rfl,
    (C10_entity_fields "Organization" 1
      [("entity", PyVal.dict [("name", PyVal.str "A")])]
      "Match #1:\n  Entity fields: [\x27name\x27]\n  Name: A\n\n").1
      [("name", PyVal.str "A")] rfl rfl rfl,
    rfl,
    (C10_entity_fields "Person" 1 [("score", PyVal.bool true)]
      "Match #1:\n  Confidence Score: 1.000\n  No entity data found in this match.\n").2
      rfl rfl⟩

end Diffbot
